import Mathlib

/-!
Verification development for the flappy-bird hill-climbing optimizer
(src/flappybird.py).  The Python source is shallowly embedded below:

* `Bird` / `Bird.update` embed the real-valued motion rule of
  `Bird.update` (lines 74-95), with Python floats idealized as reals so
  that `math.cos` becomes `Real.cos`.
* `BirdQ` / `BirdQ.update` are the same motion rule over exact rational
  arithmetic, used by the executable simulation-loop embedding; the value
  of `math.cos(x * pi)` is supplied by an oracle parameter `cosf` (the
  loop-level claims checked here never depend on its values).
* `Pipe` / `PipePair.init` embed `PipePair.__init__` (lines 161-206); the
  image blitting is rendering-only and carries no simulation state.
* `ai` with `ai.resetvar`, `ai.play`, `ai.scorecount` embed the optimizer
  class (lines 492-536).  The two `randint` call sites are embedded by
  passing the drawn values `r25` (for `randint(0,25)`) and `r30` (for
  `randint(0,30)`) as parameters.
* `mainStep` embeds one iteration of the `while end==0` body of `main`
  (lines 350-484) for the configuration `player == 0` (no human-controlled
  bird; every `if player:` block in the source is then dead code).  The
  pixel-mask collision test `PipePair.collides_with` is an external pygame
  service and is supplied as an oracle `collide`; the per-bird random draws
  are supplied by `randf`.
-/

/-- Frames-per-second constant `FPS = 60` (line 15). -/
def FPS : ℕ := 60

/-- Scroll speed `ANIMATION_SPEED = 0.18` pixels per millisecond (line 16),
as an exact rational. -/
def ANIMATION_SPEED : ℚ := 0.18

/-- Window width `WIN_WIDTH = 284 * 2` (line 17). -/
def WIN_WIDTH : ℤ := 284 * 2

/-- Window height `WIN_HEIGHT = 512` (line 18). -/
def WIN_HEIGHT : ℤ := 512

/-- Fixed bird abscissa `BIRD_X = 50` (line 19). -/
def BIRD_X : ℤ := 50

/-- Conversion `frames_to_msec(frames)` (lines 289-296) at the default
framerate `fps = FPS = 60`: `1000.0 * frames / fps`, idealized over ℝ. -/
noncomputable def frames_to_msec (frames : ℕ) : ℝ := 1000 * frames / 60

/-- Conversion `frames_to_msec(frames)` at `fps = 60` over exact rationals
(the Python float arithmetic is exact for all values arising here). -/
def framesToMsecQ (frames : ℕ) : ℚ := 1000 * frames / 60

/-- Conversion `msec_to_frames(milliseconds)` (lines 299-306) at `fps = 60`:
`fps * milliseconds / 1000.0`.  Note `msecToFramesQ 3000 = 180`, the pipe
spawn period in frames used by the main loop. -/
def msecToFramesQ (milliseconds : ℚ) : ℚ := 60 * milliseconds / 1000

/-- Bird sink speed `Bird.SINK_SPEED = 0.2` px/ms (line 48). -/
noncomputable def SINK_SPEED : ℝ := 0.2

/-- Bird average climb speed `Bird.CLIMB_SPEED = 0.3` px/ms (line 49). -/
noncomputable def CLIMB_SPEED : ℝ := 0.3

/-- Climb duration `Bird.CLIMB_DURATION = 200` ms (line 50). -/
noncomputable def CLIMB_DURATION : ℝ := 200

/-- Bird state: position and remaining climb time (`Bird.__init__`,
lines 52-72; the image/mask attributes are rendering-only).  Python floats
are idealized as reals. -/
structure Bird where
  x : ℝ
  y : ℝ
  msec_to_climb : ℝ

/-- Embeds `Bird.update(delta_frames)` (lines 74-95): while
`msec_to_climb > 0` the bird ascends along the cosine-eased profile and
`msec_to_climb` is decremented by the elapsed milliseconds (with no
clamping in the source); otherwise it sinks at `SINK_SPEED`. -/
noncomputable def Bird.update (b : Bird) (delta_frames : ℕ) : Bird :=
  if b.msec_to_climb > 0 then
    { b with
      y := b.y - (CLIMB_SPEED * frames_to_msec delta_frames *
        (1 - Real.cos ((1 - b.msec_to_climb / CLIMB_DURATION) * Real.pi)))
      msec_to_climb := b.msec_to_climb - frames_to_msec delta_frames }
  else
    { b with y := b.y + SINK_SPEED * frames_to_msec delta_frames }

/-- Bird state over exact rationals, for the executable loop embedding. -/
structure BirdQ where
  x : ℚ
  y : ℚ
  msec_to_climb : ℚ
  deriving DecidableEq

/-- Rational rendering of `Bird.update` (lines 74-95) used inside the loop
embedding.  `cosf` is the oracle giving the value of `math.cos(x * pi)`
at the rational argument `x = frac_climb_done`. -/
def BirdQ.update (cosf : ℚ → ℚ) (b : BirdQ) (delta_frames : ℕ) : BirdQ :=
  if b.msec_to_climb > 0 then
    { b with
      y := b.y - (0.3 * framesToMsecQ delta_frames *
        (1 - cosf (1 - b.msec_to_climb / 200)))
      msec_to_climb := b.msec_to_climb - framesToMsecQ delta_frames }
  else
    { b with y := b.y + 0.2 * framesToMsecQ delta_frames }

/-- Pipe-pair state (`PipePair.__init__`, lines 161-206): scroll position,
score flag and the piece counts after end-piece compensation.  The blitted
`image`/`mask` are rendering artifacts. -/
structure Pipe where
  x : ℚ
  score_counted : Bool
  top_pieces : ℤ
  bottom_pieces : ℤ
  deriving DecidableEq

/-- Embeds `total_pipe_body_pieces` (lines 178-183):
`int((WIN_HEIGHT - 3*Bird.HEIGHT - 3*PipePair.PIECE_HEIGHT) / PIECE_HEIGHT)`.
The Python float division is exact here (`320 / 32 = 10`), so integer
division embeds it faithfully. -/
def totalPipeBodyPieces : ℤ := (512 - 3 * 32 - 3 * 32) / 32

/-- Embeds `PipePair.__init__(pipe_end_img, pipe_body_img, pipenum)`
(lines 161-206): `x = float(WIN_WIDTH - 1)`, `bottom_pieces = pipenum`,
`top_pieces = total_pipe_body_pieces - bottom_pieces`, then both counts are
incremented by one to compensate for the added end pieces.  The source has
no validation and no failure path, so the embedding is a total function. -/
def PipePair.init (pipenum : ℤ) : Pipe :=
  let total := totalPipeBodyPieces
  let bottom := pipenum
  let top := total - bottom
  { x := (568 : ℚ) - 1
    score_counted := false
    top_pieces := top + 1
    bottom_pieces := bottom + 1 }

/-- Embeds `PipePair.update(delta_frames)` (lines 228-235):
`x -= ANIMATION_SPEED * frames_to_msec(delta_frames)`. -/
def Pipe.update (p : Pipe) (delta_frames : ℕ) : Pipe :=
  { p with x := p.x - ANIMATION_SPEED * framesToMsecQ delta_frames }

/-- Embeds the `visible` property (lines 218-221):
`-PipePair.WIDTH < x < WIN_WIDTH` with `WIDTH = 80`. -/
def Pipe.visible (p : Pipe) : Bool := (-80 < p.x) && (p.x < 568)

/-- Preset pipe-size schedule `PS = (5, 4, 8, 3, 8, 7, 3, 2, 6, 5)`
(line 346). -/
def PS : List ℤ := [5, 4, 8, 3, 8, 7, 3, 2, 6, 5]

/-- Optimizer state, one per lineage (`ai.__init__`, lines 493-502).
`curr` and `best` are the run summaries `[score, deathtype, last-score
index, move, move, ...]` as ordinary integer lists, exactly as in the
source.  `done` carries the Python values `1`/`0`/`True` with `True`
rendered as `1` (Python compares `True == 1`). -/
structure ai where
  curr : List ℤ
  best : List ℤ
  count : ℕ
  compframe : ℕ
  deathtype : ℤ
  deathprocessed : ℤ
  done : ℤ
  score : ℤ
  deriving DecidableEq

/-- Initial optimizer state built by `ai.__init__` (lines 493-502). -/
def ai.initState : ai :=
  { curr := [0, 2, 0]
    best := [0, 2, 0]
    count := 2
    compframe := 0
    deathtype := 2
    deathprocessed := 0
    done := 1
    score := 0 }

/-- Embeds `ai.resetvar(score)` (lines 504-516): write the final score and
death type into `curr`, promote `curr` to `best` when it is strictly
better (higher score, or equal score and strictly lower death type),
recording `compframe = count` on promotion; finally `curr` becomes a copy
of `best` and the cursor resets to 2. -/
def ai.resetvar (s : ai) (score : ℤ) : ai :=
  let curr1 := (s.curr.set 0 score).set 1 s.deathtype
  if curr1.getD 0 0 > s.best.getD 0 0 then
    { s with best := curr1, compframe := s.count, curr := curr1, count := 2 }
  else if curr1.getD 0 0 = s.best.getD 0 0 then
    if curr1.getD 1 0 < s.best.getD 1 0 then
      { s with best := curr1, compframe := s.count, curr := curr1, count := 2 }
    else
      { s with curr := s.best, count := 2 }
  else
    { s with curr := s.best, count := 2 }

/-- Embeds `ai.play()` (lines 518-533).  `r25` is the value drawn by the
source's `randint(0, 25)` call sites and `r30` the value drawn by its
`randint(0, 30)` call site.  The source's `if best[1]==2: ... / if
best[1]==1: ... else: ...` structure is kept exactly as written: the
`else` belongs to `if best[1]==1`, so for `best[1] == 2` the first
assignment can be overwritten by the `randint(0, 30)` branch, and the
class-1 guard compares the cursor against `(compframe - best[2]) / 2`
(Python true division, hence the exact rational comparison). -/
def ai.play (s : ai) (r25 r30 : ℤ) : ai × ℤ :=
  let curr1 :=
    if s.best = [0, 2, 0] ∨ (s.count : ℤ) > (s.curr.length : ℤ) - 1 then
      s.curr ++ [r25]
    else if (s.count : ℤ) > s.best.getD 2 0 then
      let c1 := if s.best.getD 1 0 = 2 then s.curr.set s.count r25 else s.curr
      if s.best.getD 1 0 = 1 then
        if (s.count : ℚ) > ((s.compframe : ℚ) - ((s.best.getD 2 0 : ℤ) : ℚ)) / 2
          then c1.set s.count r25 else c1
      else
        if (s.count : ℤ) > (s.compframe : ℤ) - 20
          then c1.set s.count r30 else c1
    else s.curr
  let count1 := s.count + 1
  ({ s with curr := curr1, count := count1 }, curr1.getD (count1 - 1) 0)

/-- Embeds `ai.scorecount()` (lines 535-536): `curr[2] = count`. -/
def ai.scorecount (s : ai) : ai :=
  { s with curr := s.curr.set 2 (s.count : ℤ) }

/-- Input events consumed by the event loop of `main` (lines 410-421),
for the `player == 0` configuration (the flap inputs then have no
effect on simulation state). -/
inductive GameEvent where
  | escapeKey
  | quitEvent
  | pauseKey
  | flapKey
  deriving DecidableEq

/-- Embeds the event loop (lines 410-421) acting on the pair
`(end, paused)`: an ESCAPE key-up sets `end = True` and breaks; a QUIT
event breaks without touching `end` (it only sets the dead local `done`);
PAUSE/p toggles `paused`; flap inputs are player-only and ignored when
`player == 0`. -/
def processEvents : List GameEvent → Bool → Bool → Bool × Bool
  | [], e, p => (e, p)
  | ev :: rest, e, p =>
    match ev with
    | .escapeKey => (true, p)
    | .quitEvent => (e, p)
    | .pauseKey => processEvents rest e (!p)
    | .flapKey => processEvents rest e p

/-- Truncation of a rational toward zero, embedding pygame's conversion of
the float `bird.y` to the integer `bird.rect[1]` (line 125 via line 434). -/
def ratTrunc (q : ℚ) : ℤ := q.num / (q.den : ℤ)

/-- Embeds the per-bird collision/death-classification step (lines
427-439).  `collide p b` is the external pixel-mask test
`p.collides_with(birds[i])`; `pipes` is the live pipe list (its head is
only inspected when a pipe collision occurred, in which case it exists,
matching the source's `pipes[0]`). -/
def collideStep (collide : Pipe → BirdQ → Bool) (pipes : List Pipe)
    (b : BirdQ) (a : ai) : BirdQ × ai :=
  let pipe_collision := pipes.any (fun p => collide p b)
  if a.deathprocessed = 0 ∧
      (pipe_collision = true ∨ 0 ≥ b.y ∨ b.y ≥ 512 - 32) then
    let dt : ℤ :=
      if pipe_collision then
        let p0 := pipes.headD (PipePair.init 0)
        if ratTrunc b.y > (p0.top_pieces - 1) * 32 ∧
            ratTrunc b.y < 512 - p0.bottom_pieces * 32
          then 0 else 1
      else 2
    ({ b with x := -100 },
     { a with deathprocessed := 1, done := 1, deathtype := dt })
  else (b, a)

/-- Embeds the machine-learning call (lines 480-484) for one bird: if the
lineage is alive (`done == 0`), call `play()` and set
`msec_to_climb = Bird.CLIMB_DURATION = 200` exactly when it returns 1. -/
def mlOne (r25 r30 : ℤ) (b : BirdQ) (a : ai) : BirdQ × ai :=
  if a.done = 0 then
    ((if (a.play r25 r30).2 = 1 then { b with msec_to_climb := 200 } else b),
     (a.play r25 r30).1)
  else (b, a)

/-- State of the main loop (locals of `main`, lines 309-490), restricted
to the simulation-relevant variables for the `player == 0` configuration.
`end_` renders the Python `end` flag (`0`/`True`). -/
structure MainState where
  end_ : Bool
  paused : Bool
  firstcheck : Bool
  score : ℤ
  frame_clock : ℕ
  pscount : ℕ
  pipes : List Pipe
  birds : List BirdQ
  ais : List ai
  deriving DecidableEq

/-- Embeds the restart block of `main` (lines 356-398), executed when
`restart == 1` and `player == 0`: re-create every bird, reset the
per-lineage flags, call `resetvar` with the accumulated score when this is
not the very first pass, clear pipes and counters, share the best-scoring
(`best[0]`) and then best-death-type (`best[1]`) sequences across
lineages, and finally call `resetvar(i.score)` once more on every lineage.
The source indexes `autoinput` by `range(len(birds))`; both lists always
have the configured population length. -/
def resetBlock (s : MainState) : MainState :=
  let ais0 := s.ais.map (fun a =>
    let a1 := { a with done := 0, deathprocessed := 0 }
    if s.firstcheck = false then
      let a2 := a1.resetvar a1.score
      { a2 with score := 0 }
    else a1)
  let birds0 := s.birds.map (fun _ =>
    ({ x := 50, y := 240, msec_to_climb := 2 } : BirdQ))
  let fc := if s.firstcheck then false else s.firstcheck
  let pair1 : ℤ × ℤ := (List.range ais0.length).foldl
    (fun bi i =>
      if (ais0.getD i ai.initState).best.getD 0 0 > bi.1 then
        ((ais0.getD i ai.initState).best.getD 0 0, (i : ℤ))
      else bi) (0, -1)
  let ais1 :=
    if pair1.1 > 0 then
      ais0.map (fun a =>
        if a.best.getD 0 0 < pair1.1 then
          { a with best := (ais0.getD pair1.2.toNat ai.initState).best }
        else a)
    else ais0
  let pair2 : ℤ × ℤ := (List.range ais1.length).foldl
    (fun bi i =>
      if (ais1.getD i ai.initState).best.getD 1 0 < bi.1 then
        ((ais1.getD i ai.initState).best.getD 1 0, (i : ℤ))
      else bi) (2, -1)
  let ais2 :=
    if pair2.1 < 2 then
      ais1.map (fun a =>
        if a.best.getD 1 0 > pair2.1 then
          { a with best := (ais1.getD pair2.2.toNat ai.initState).best }
        else a)
    else ais1
  let ais3 := ais2.map (fun a => a.resetvar a.score)
  { s with
    score := 0
    paused := false
    firstcheck := fc
    ais := ais3
    birds := birds0
    pipes := []
    pscount := 0
    frame_clock := 0 }

/-- Embeds the scoring pass of `main` (lines 464-471), one pipe at a time:
a pipe whose trailing edge `x + PipePair.WIDTH` has passed `BIRD_X` and
whose score is not yet counted awards one point to every lineage that is
still alive (`done == 0`, with `scorecount()` recording the cursor), bumps
the global score and is marked counted.  The accumulator carries the
processed pipe list, the lineage states and the global score. -/
def scoreFold (acc : List Pipe × List ai × ℤ) (p : Pipe) :
    List Pipe × List ai × ℤ :=
  if p.x + 80 < 50 ∧ p.score_counted = false then
    (acc.1 ++ [{ p with score_counted := true }],
     acc.2.1.map (fun a =>
       if a.done = 0 then ({ a with score := a.score + 1 }).scorecount else a),
     acc.2.2 + 1)
  else (acc.1 ++ [p], acc.2.1, acc.2.2)

/-- Embeds one iteration of the `while end==0` body of `main`
(lines 350-484) for `player == 0`: restart check, pipe spawn
(`frame_clock % msec_to_frames(ADD_INTERVAL)` with
`msec_to_frames(3000) = 180` exactly), event processing, the paused
`continue`, collision/classification, pipe retirement and motion, bird
motion, scoring, frame counter increment and the machine-learning calls.
`cosf`, `collide` and `randf` are the cosine, pixel-mask and
random-draw oracles; `randf i = (r25, r30)` gives the draws available to
bird `i`'s `play()` call this tick. -/
def mainStep (cosf : ℚ → ℚ) (collide : Pipe → BirdQ → Bool)
    (randf : ℕ → ℤ × ℤ) (events : List GameEvent) (s : MainState) :
    MainState :=
  let restart : ℤ := s.ais.foldl (fun r a => if a.done < r then a.done else r) 1
  let s1 := if restart = 1 then resetBlock s else s
  let s2 :=
    if ¬ s1.paused ∧ s1.frame_clock % 180 = 0 then
      { s1 with
        pipes := s1.pipes ++ [PipePair.init (PS.getD s1.pscount 0)]
        pscount := if s1.pscount + 1 = 10 then 0 else s1.pscount + 1 }
    else s1
  let ep := processEvents events s2.end_ s2.paused
  if ep.2 then { s2 with end_ := ep.1, paused := ep.2 }
  else
    let cb := (s2.birds.zip s2.ais).map
      (fun q => collideStep collide s2.pipes q.1 q.2)
    let birds1 := cb.map Prod.fst
    let ais1 := cb.map Prod.snd
    let pipes1 := s2.pipes.dropWhile (fun p => ¬ p.visible)
    let pipes2 := pipes1.map (fun p => p.update 1)
    let birds2 := birds1.map (fun b => b.update cosf 1)
    let sc := pipes2.foldl scoreFold ([], ais1, s2.score)
    let ml := (birds2.zip sc.2.1).enum.map
      (fun q => mlOne (randf q.1).1 (randf q.1).2 q.2.1 q.2.2)
    { s2 with
      end_ := ep.1
      paused := ep.2
      score := sc.2.2
      frame_clock := s2.frame_clock + 1
      pipes := sc.1
      birds := ml.map Prod.fst
      ais := ml.map Prod.snd }

/-- Initial loop state for a configured population of `birdnum` lineages
with no human player (lines 336-349): `birdnum` birds at
`(BIRD_X, int(WIN_HEIGHT/2 - Bird.HEIGHT/2)) = (50, 240)` with a small
initial climb of 2 ms, fresh `ai()` states, `end = 0`, `firstcheck = 1`,
no pipes.  `paused`, `frame_clock` and `pscount` are first assigned inside
the restart block before any read; their init values here are
placeholders for those dead reads. -/
def initMain (birdnum : ℕ) : MainState :=
  { end_ := false
    paused := false
    firstcheck := true
    score := 0
    frame_clock := 0
    pscount := 0
    pipes := []
    birds := List.replicate birdnum { x := 50, y := 240, msec_to_climb := 2 }
    ais := List.replicate birdnum ai.initState }

/-- C1: for every lineage state, `ai.resetvar score` replaces `best` with
the full updated copy of `curr` (score and death type written in) exactly
when the final score strictly exceeds `best`'s score, or the scores are
equal and the death classification is strictly lower; on replacement
`compframe` becomes the cursor value, otherwise it is unchanged; in every
case `curr` ends equal to `best` and the cursor resets to 2. -/
theorem resetvar_promote_iff (s : ai) (score : ℤ) (h : 2 ≤ s.curr.length) :
    (s.resetvar score).best =
      (if score > s.best.getD 0 0 ∨
          (score = s.best.getD 0 0 ∧ s.deathtype < s.best.getD 1 0)
        then (s.curr.set 0 score).set 1 s.deathtype else s.best)
    ∧ (s.resetvar score).compframe =
      (if score > s.best.getD 0 0 ∨
          (score = s.best.getD 0 0 ∧ s.deathtype < s.best.getD 1 0)
        then s.count else s.compframe)
    ∧ (s.resetvar score).curr = (s.resetvar score).best
    ∧ (s.resetvar score).count = 2 := by
  obtain ⟨curr, best, count, compframe, dt, dp, dn, sc⟩ := s
  rcases curr with _ | ⟨a, curr⟩
  · simp at h
  rcases curr with _ | ⟨b, t⟩
  · simp at h
  by_cases h1 : (best[0]?.getD 0 : ℤ) < score
  · simp [ai.resetvar, h1]
  · by_cases h2 : score = (best[0]?.getD 0 : ℤ)
    · by_cases h3 : dt < (best[1]?.getD 0 : ℤ)
      · simp [ai.resetvar, h1, h2, h3]
      · simp [ai.resetvar, h1, h2, h3]
    · simp [ai.resetvar, h1, h2]

/-- C1 witness: concrete promotion at score 1 against the sentinel best. -/
theorem resetvar_promote_iff_witness :
    2 ≤ (⟨[0, 2, 0], [0, 2, 0], 7, 0, 1, 0, 1, 0⟩ : ai).curr.length ∧
      ((⟨[0, 2, 0], [0, 2, 0], 7, 0, 1, 0, 1, 0⟩ : ai).resetvar 1).count = 2 :=
  ⟨by decide,
   (resetvar_promote_iff ⟨[0, 2, 0], [0, 2, 0], 7, 0, 1, 0, 1, 0⟩ 1
      (by decide)).2.2.2⟩

/-- C2: a single `ai.resetvar` call never decreases `best`'s score
component, and when the score component is unchanged it never increases
`best`'s death-classification component; hence both hold between any two
successive `end_run` calls with no external modification of `best`. -/
theorem resetvar_best_monotone (s : ai) (score : ℤ) :
    s.best.getD 0 0 ≤ (s.resetvar score).best.getD 0 0
    ∧ ((s.resetvar score).best.getD 0 0 = s.best.getD 0 0 →
        (s.resetvar score).best.getD 1 0 ≤ s.best.getD 1 0) := by
  simp only [ai.resetvar]
  split_ifs with h1 h2 h3 <;> constructor <;> simp_all <;> omega

/-- C2 witness: a tied score with a tied death class leaves the sentinel
best's death class unchanged. -/
theorem resetvar_best_monotone_witness :
    (ai.initState.resetvar 0).best.getD 1 0 ≤ ai.initState.best.getD 1 0 :=
  (resetvar_best_monotone ai.initState 0).2 (by decide)

/-- C3: evaluation of `ai.play` at a lineage whose best run ended in a
side collision (`best[1] = 1`), with last-score tick `best[2] = 10`,
comparison tick `compframe = 20` and cursor `count = 12`.  The cursor is
at or before the midpoint `(20 + 10) / 2 = 15` of the window, so the
claim (and the source's own comment) requires the recorded best action
`7` at position 12 to be replayed unchanged; the code instead compares
the cursor against `(compframe - best[2]) / 2 = 5` (the half-width of the
window, not its midpoint) and re-rolls the position with the
`randint(0,25)` draw, here 25. -/
theorem play_side_rerolls_before_midpoint :
    ((ai.play
        ⟨[3, 1, 10, 0, 0, 0, 0, 0, 0, 0, 0, 0, 7, 0],
         [3, 1, 10, 0, 0, 0, 0, 0, 0, 0, 0, 0, 7, 0],
         12, 20, 1, 0, 0, 3⟩ 25 30).1.curr.getD 12 0 = 25)
    ∧ ((12 : ℚ) ≤ ((20 : ℚ) + 10) / 2) := by
  constructor
  · simp only [ai.play]
    norm_num
  · norm_num

/-- C4: evaluation of `ai.play` at a lineage whose best run ended
off-screen (`best[1] = 2`), with `best[2] = 10`, `compframe = 25` and
cursor `count = 12`, where the `randint(0,25)` site draws 7 and the
`randint(0,30)` site draws 30.  The claim says the stored action is
re-rolled from the wide 0..25 range so the final value lies in 0..25;
because the source's `else` is attached to `if best[1]==1`, the class-2
assignment from `randint(0,25)` is overwritten by the `randint(0,30)`
draw, and the final value is 30 > 25. -/
theorem play_offscreen_wide_overwrite :
    ((ai.play
        ⟨[3, 2, 10, 0, 0, 0, 0, 0, 0, 0, 0, 0, 7, 0],
         [3, 2, 10, 0, 0, 0, 0, 0, 0, 0, 0, 0, 7, 0],
         12, 25, 2, 0, 0, 3⟩ 7 30).1.curr.getD 12 0 = 30)
    ∧ ¬ ((ai.play
        ⟨[3, 2, 10, 0, 0, 0, 0, 0, 0, 0, 0, 0, 7, 0],
         [3, 2, 10, 0, 0, 0, 0, 0, 0, 0, 0, 0, 7, 0],
         12, 25, 2, 0, 0, 3⟩ 7 30).1.curr.getD 12 0 ≤ 25) := by
  constructor
  · simp only [ai.play]
    norm_num
  · simp only [ai.play]
    norm_num

/-- C5 (amended): in `Bird.update`, whenever `msec_to_climb` is strictly
positive the bird moves up along the cosine-eased profile (its `y` never
increases) and `msec_to_climb` is decreased by the elapsed logical time,
possibly below zero (the source does not clamp it); whenever
`msec_to_climb` is not positive, `y` increases by `SINK_SPEED` times the
elapsed milliseconds. -/
theorem bird_update_branches (b : Bird) (d : ℕ) :
    (0 < b.msec_to_climb →
      (b.update d).y = b.y - (CLIMB_SPEED * frames_to_msec d *
          (1 - Real.cos ((1 - b.msec_to_climb / CLIMB_DURATION) * Real.pi)))
      ∧ (b.update d).y ≤ b.y
      ∧ (b.update d).msec_to_climb = b.msec_to_climb - frames_to_msec d)
    ∧ (¬ 0 < b.msec_to_climb →
      (b.update d).y = b.y + SINK_SPEED * frames_to_msec d) := by
  constructor
  · intro h
    rw [Bird.update, if_pos h]
    refine ⟨rfl, ?_, rfl⟩
    have hcos := Real.cos_le_one ((1 - b.msec_to_climb / CLIMB_DURATION) * Real.pi)
    have hf : (0 : ℝ) ≤ frames_to_msec d := by
      unfold frames_to_msec
      positivity
    have hc : (0 : ℝ) ≤ CLIMB_SPEED := by
      unfold CLIMB_SPEED
      norm_num
    have : 0 ≤ CLIMB_SPEED * frames_to_msec d *
        (1 - Real.cos ((1 - b.msec_to_climb / CLIMB_DURATION) * Real.pi)) := by
      apply mul_nonneg (mul_nonneg hc hf)
      linarith
    simp only
    linarith
  · intro h
    rw [Bird.update, if_neg h]

/-- C5 witness: a full climb budget of 200 ms is decremented by one
frame's elapsed time. -/
theorem bird_update_branches_witness :
    0 < (200 : ℝ) ∧
      ((⟨50, 240, 200⟩ : Bird).update 1).msec_to_climb = 200 - frames_to_msec 1 :=
  ⟨by norm_num, ((bird_update_branches ⟨50, 240, 200⟩ 1).1 (by norm_num)).2.2⟩

/-- C5 counterexample: with 10 ms of climb left and one elapsed frame
(16.6 ms), the source drives `msec_to_climb` strictly below zero, against
the claim's "never below zero". -/
theorem bird_update_msec_below_zero :
    0 < ((⟨50, 240, 10⟩ : Bird) : Bird).msec_to_climb ∧
      ((⟨50, 240, 10⟩ : Bird).update 1).msec_to_climb < 0 := by
  constructor
  · norm_num
  · rw [Bird.update, if_pos (by norm_num : (⟨50, 240, 10⟩ : Bird).msec_to_climb > 0)]
    simp only
    rw [frames_to_msec]
    norm_num

/-- C6 (amended): one `Bird.update` step changes `y` by at most
`max SINK_SPEED (2 * CLIMB_SPEED)` times the elapsed milliseconds: the
cosine-eased climb profile peaks at twice the average climb speed, so the
claimed `max SINK_SPEED CLIMB_SPEED` bound must be doubled on the climb
side. -/
theorem bird_update_jump_bound (b : Bird) (d : ℕ) :
    |(b.update d).y - b.y| ≤ max SINK_SPEED (2 * CLIMB_SPEED) * frames_to_msec d := by
  have hf : (0 : ℝ) ≤ frames_to_msec d := by
    unfold frames_to_msec
    positivity
  have hmax : max SINK_SPEED (2 * CLIMB_SPEED) = 0.6 := by
    rw [SINK_SPEED, CLIMB_SPEED]
    norm_num
  by_cases h : b.msec_to_climb > 0
  · rw [Bird.update, if_pos h]
    simp only
    have hcos1 := Real.cos_le_one ((1 - b.msec_to_climb / CLIMB_DURATION) * Real.pi)
    have hcos2 := Real.neg_one_le_cos ((1 - b.msec_to_climb / CLIMB_DURATION) * Real.pi)
    have hc : CLIMB_SPEED = 0.3 := rfl
    rw [abs_le]
    constructor
    · rw [hmax]
      rw [hc]
      nlinarith
    · rw [hmax]
      rw [hc]
      nlinarith
  · rw [Bird.update, if_neg h]
    simp only
    have hs : SINK_SPEED = 0.2 := rfl
    rw [abs_le, hmax, hs]
    constructor
    · nlinarith
    · nlinarith

/-- C6 counterexample: at `msec_to_climb = 200/3` the eased profile's
instantaneous factor is `1 - cos(2*pi/3) = 3/2`, so one frame moves the
bird by `0.3 * (50/3) * (3/2) = 7.5` px, strictly more than
`max(SINK_SPEED, CLIMB_SPEED) * 50/3 = 5` px. -/
theorem bird_update_jump_exceeds_avg_bound :
    max SINK_SPEED CLIMB_SPEED * frames_to_msec 1 <
      |((⟨50, 240, 200 / 3⟩ : Bird).update 1).y - (⟨50, 240, 200 / 3⟩ : Bird).y| := by
  have hc : Real.cos ((1 - (200 / 3 : ℝ) / CLIMB_DURATION) * Real.pi) = -(1 / 2) := by
    have h1 : ((1 - (200 / 3 : ℝ) / CLIMB_DURATION) * Real.pi) =
        Real.pi - Real.pi / 3 := by
      rw [CLIMB_DURATION]
      ring
    rw [h1, Real.cos_pi_sub, Real.cos_pi_div_three]
  rw [Bird.update, if_pos (by norm_num : (⟨50, 240, 200 / 3⟩ : Bird).msec_to_climb > 0)]
  simp only [hc]
  have hmax2 : max SINK_SPEED CLIMB_SPEED = 0.3 := by
    rw [SINK_SPEED, CLIMB_SPEED]
    norm_num
  rw [hmax2, CLIMB_SPEED, frames_to_msec]
  have harg : (240 : ℝ) - 0.3 * (1000 * ((1 : ℕ) : ℝ) / 60) * (1 - -(1 / 2)) - 240 =
      -(15 / 2) := by
    push_cast
    norm_num
  rw [harg, abs_neg, abs_of_nonneg (by norm_num : (0 : ℝ) ≤ 15 / 2)]
  push_cast
  norm_num

/-- C7: for every gap size in the 10-value schedule `PS`, the constructed
pipe pair satisfies `top_pieces + bottom_pieces = totalPipeBodyPieces + 2`
after end-piece compensation. -/
theorem pipe_pieces_sum (g : ℤ) (_hg : g ∈ PS) :
    (PipePair.init g).top_pieces + (PipePair.init g).bottom_pieces =
      totalPipeBodyPieces + 2 := by
  simp only [PipePair.init]
  ring

/-- C7 witness: the first schedule value, gap size 5. -/
theorem pipe_pieces_sum_witness :
    (5 : ℤ) ∈ PS ∧
      (PipePair.init 5).top_pieces + (PipePair.init 5).bottom_pieces =
        totalPipeBodyPieces + 2 :=
  ⟨by decide, pipe_pieces_sum 5 (by decide)⟩

/-- C8 (amended): construction performs no validation and cannot fail:
for every gap value whose raw top count `totalPipeBodyPieces - g` or raw
bottom count `g` is non-positive, `PipePair.init` still returns an
obstacle, with `top_pieces = totalPipeBodyPieces - g + 1` and
`bottom_pieces = g + 1`, and one of the two compensated counts is at
most 1 (so zero or negative piece counts are produced, never a
configuration error); no value of the 10-value schedule is degenerate. -/
theorem pipe_init_no_validation (g : ℤ)
    (h : totalPipeBodyPieces - g ≤ 0 ∨ g ≤ 0) :
    (PipePair.init g).top_pieces = totalPipeBodyPieces - g + 1
    ∧ (PipePair.init g).bottom_pieces = g + 1
    ∧ ((PipePair.init g).top_pieces ≤ 1 ∨ (PipePair.init g).bottom_pieces ≤ 1) := by
  refine ⟨rfl, rfl, ?_⟩
  simp only [PipePair.init]
  omega

/-- C8 witness: gap value 11 has a non-positive raw top count and is
constructed anyway. -/
theorem pipe_init_no_validation_witness :
    (totalPipeBodyPieces - 11 ≤ 0 ∨ (11 : ℤ) ≤ 0) ∧
      (PipePair.init 11).bottom_pieces = 11 + 1 :=
  ⟨by decide, (pipe_init_no_validation 11 (by decide)).2.1⟩

/-- C8 counterexample: the gap value 11 makes the raw top segment count
non-positive (`10 - 11 = -1`), yet `PipePair.init` succeeds and returns an
obstacle whose compensated top piece count is 0 — the code never raises a
configuration error and does produce zero (or, for larger gaps, negative)
piece counts. -/
theorem pipe_init_degenerate_accepted :
    totalPipeBodyPieces - 11 ≤ 0 ∧ (PipePair.init 11).top_pieces = 0 := by
  constructor
  · decide
  · decide

/-- C10: in the machine-learning section of the main loop, a lineage that
is still alive (`done == 0`) has its bird's `msec_to_climb` set to
`Bird.CLIMB_DURATION = 200` exactly when its `play()` call returns the
integer 1; any other returned value (0, or 2 through 30, or anything
else) leaves the bird unchanged. -/
theorem ml_ascend_iff_one (r25 r30 : ℤ) (b : BirdQ) (a : ai) (h : a.done = 0) :
    ((a.play r25 r30).2 = 1 →
      (mlOne r25 r30 b a).1 = { b with msec_to_climb := 200 })
    ∧ ((a.play r25 r30).2 ≠ 1 → (mlOne r25 r30 b a).1 = b) := by
  constructor
  · intro hf
    simp [mlOne, h, hf]
  · intro hf
    simp [mlOne, h, hf]

/-- C10 witness: a fresh alive lineage's first `play` call returns the
recorded value 0 (not 1), so the bird is untouched. -/
theorem ml_ascend_iff_one_witness :
    ({ ai.initState with done := 0 } : ai).done = 0 ∧
      (mlOne 5 7 ⟨50, 240, 2⟩ { ai.initState with done := 0 }).1 =
        (⟨50, 240, 2⟩ : BirdQ) :=
  ⟨rfl,
   (ml_ascend_iff_one 5 7 ⟨50, 240, 2⟩ { ai.initState with done := 0 } rfl).2
     (by decide)⟩

/-- Helper: the scoring pass cannot create lineage state out of nothing —
with an empty lineage accumulator it stays empty. -/
theorem scoreFold_ais_nil (ps : List Pipe) (acc1 : List Pipe) (sc0 : ℤ) :
    (ps.foldl scoreFold (acc1, ([] : List ai), sc0)).2.1 = [] := by
  induction ps generalizing acc1 sc0 with
  | nil => rfl
  | cons p ps ih =>
    rw [List.foldl_cons, scoreFold]
    split_ifs
    · exact ih _ _
    · exact ih _ _

/-- Helper: with no lineages configured, one main-loop iteration with no
input events leaves the `end` flag untouched and both population lists
empty (the restart block runs every tick over empty lists). -/
theorem mainStep_no_lineages (c : ℚ → ℚ) (k : Pipe → BirdQ → Bool)
    (r : ℕ → ℤ × ℤ) (s : MainState) (hb : s.birds = []) (ha : s.ais = []) :
    (mainStep c k r [] s).end_ = s.end_
    ∧ (mainStep c k r [] s).birds = []
    ∧ (mainStep c k r [] s).ais = [] := by
  obtain ⟨e, p, fc, sc, f, ps, pp, bs, as⟩ := s
  have hb2 : bs = [] := hb
  have ha2 : as = [] := ha
  subst hb2
  subst ha2
  norm_num [mainStep, resetBlock, processEvents, scoreFold_ais_nil,
    PipePair.init, Pipe.update, Pipe.visible, framesToMsecQ, ANIMATION_SPEED,
    totalPipeBodyPieces, List.dropWhile]

/-- C9 (amended): with a configured population of zero (and no
human-controlled bird), the main loop does not terminate on its own: the
`end` flag is set only by an ESCAPE key event, so with no input events
every iteration re-runs the restart block over empty lineage lists and the
loop spins for ever — after any number of iterations `end` is still
unset. -/
theorem main_loop_population_zero_spins (c : ℚ → ℚ)
    (k : Pipe → BirdQ → Bool) (r : ℕ → ℤ × ℤ) (n : ℕ) :
    ((mainStep c k r [])^[n] (initMain 0)).end_ = false
    ∧ ((mainStep c k r [])^[n] (initMain 0)).birds = []
    ∧ ((mainStep c k r [])^[n] (initMain 0)).ais = [] := by
  induction n with
  | zero => exact ⟨rfl, rfl, rfl⟩
  | succ n ih =>
    rw [Function.iterate_succ_apply']
    obtain ⟨h1, h2, h3⟩ := ih
    obtain ⟨g1, g2, g3⟩ := mainStep_no_lineages c k r _ h2 h3
    exact ⟨g1.trans h1, g2, g3⟩

/-- C9 counterexample: starting from the population-zero initial state and
running three full loop iterations with no input events, the `end` flag is
still unset — the loop has not terminated immediately; it keeps spinning
through empty restart cycles. -/
theorem main_loop_population_zero_not_immediate :
    ((mainStep (fun _ => 0) (fun _ _ => false) (fun _ => (0, 0)) [])^[3]
        (initMain 0)).end_ = false := by
  have e3 : (mainStep (fun _ => 0) (fun _ _ => false) (fun _ => (0, 0)) [])^[3]
        (initMain 0) =
      mainStep (fun _ => 0) (fun _ _ => false) (fun _ => (0, 0)) []
        (mainStep (fun _ => 0) (fun _ _ => false) (fun _ => (0, 0)) []
          (mainStep (fun _ => 0) (fun _ _ => false) (fun _ => (0, 0)) []
            (initMain 0))) := by
    rw [Function.iterate_succ_apply', Function.iterate_succ_apply',
      Function.iterate_succ_apply', Function.iterate_zero_apply]
  obtain ⟨h1, h2, h3⟩ := mainStep_no_lineages (fun _ => 0) (fun _ _ => false)
    (fun _ => (0, 0)) (initMain 0) rfl rfl
  obtain ⟨g1, g2, g3⟩ := mainStep_no_lineages (fun _ => 0) (fun _ _ => false)
    (fun _ => (0, 0)) _ h2 h3
  obtain ⟨k1, _, _⟩ := mainStep_no_lineages (fun _ => 0) (fun _ _ => false)
    (fun _ => (0, 0)) _ g2 g3
  rw [e3, k1, g1, h1]
  rfl
